import Mathlib

/-!
Verification development for the sphinx-tribes payment-and-budget subsystem
and its authentication middleware.

Part 1 embeds the authentication middleware `PubKeyContext` from
`src/auth/auth.go` (token selection, JWT-vs-tribe-UUID dispatch, the JWT
library's claim validation, and the handler's own expiry branch).

Part 2 models the bounty payment / budget withdrawal / invoice polling
handlers.  The handler bodies (`bounty.go`) are not part of the sources at
hand (only their tests are), so these definitions are modelled from the
specification, as indicated in each doc comment.
-/

namespace SphinxTribes

/-! Authentication middleware, embedded from src/auth/auth.go. -/

/-- Claims carried by a JWT after parsing: whether a numeric `exp` claim is
present, its value (seconds since epoch), and the `pubkey` claim. -/
structure JwtClaims where
  expPresent : Bool
  exp : Int
  pubkey : String
deriving DecidableEq

/-- A JWT as the middleware sees it after the library parses it:
whether the signature verifies under the configured key, plus the claims. -/
structure JwtModel where
  sigValid : Bool
  claims : JwtClaims
deriving DecidableEq

/-- Embeds `verifyExp` of the form3tech-oss/jwt-go library used by
`src/auth/auth.go`: an `exp` of 0 yields `!required`, otherwise the check is
`now <= exp`. -/
def verifyExp (exp now : Int) (required : Bool) : Bool :=
  if exp = 0 then !required else decide (now ≤ exp)

/-- Embeds `MapClaims.VerifyExpiresAt` of the jwt-go library: if the `exp`
claim is present as a number it is checked with `verifyExp`, otherwise the
result is `req == false`. -/
def JwtClaims.verifyExpiresAt (c : JwtClaims) (cmp : Int) (req : Bool) : Bool :=
  if c.expPresent then verifyExp c.exp cmp req else !req

/-- Embeds `MapClaims.Valid` of the jwt-go library as called by
`jwt.ParseWithClaims` inside `DecodeJwt` (src/auth/auth.go line 363):
the expiry claim is checked against the current time in seconds with
`required = false`.  (The `iat`/`nbf` checks are vacuous for tokens that do
not carry those claims and are not modelled.) -/
def claimsValid (nowSec : Int) (c : JwtClaims) : Bool :=
  c.verifyExpiresAt nowSec false

/-- Embeds `DecodeJwt` (src/auth/auth.go line 363): `jwt.ParseWithClaims`
succeeds exactly when the signature verifies and the claims are valid at the
current time in seconds.  Returns the success flag; the claims themselves
are those of the token. -/
def DecodeJwt (nowSec : Int) (j : JwtModel) : Bool :=
  j.sigValid && claimsValid nowSec j.claims

/-- Outcome of the middleware: `unauthorized` means it wrote
`401 Unauthorized` and returned without invoking the downstream handler;
`authorized pk` means it invoked the downstream handler with `pk` stored
under `auth.ContextKey` in the request context. -/
inductive AuthOutcome
  | unauthorized
  | authorized (pubkey : String)
deriving DecidableEq

/-- The parts of an HTTP request that `PubKeyContext` inspects: the `token`
query parameter and the `x-jwt` header (empty string = absent, as in Go). -/
structure AuthRequest where
  queryToken : String
  xjwtHeader : String
deriving DecidableEq

/-- Environment of one middleware invocation: the current time as
`time.Now().Unix()` (seconds) and `time.Now().UnixNano()` (nanoseconds), the
interpretation of each token string as a JWT (what signature/claims the
library extracts from it), and the result of `VerifyTribeUUID` on each token
string (returned pubkey, and whether it returned an error). -/
structure AuthEnv where
  nowSec : Int
  nowNano : Int
  jwtOf : String → JwtModel
  tribePubkey : String → String
  tribeErr : String → Bool

/-- Embeds `strings.Contains(token, ".")` over the token's character
sequence. -/
def containsDot (t : String) : Bool :=
  t.data.any (fun c => c = '.')

/-- Embeds `strings.HasPrefix(token, ".")` over the token's character
sequence. -/
def startsWithDot (t : String) : Bool :=
  match t.data with
  | [] => false
  | c :: _ => c = '.'

/-- Embeds line 57 of src/auth/auth.go:
`isJwt := strings.Contains(token, ".") && !strings.HasPrefix(token, ".")`. -/
def isJwtToken (t : String) : Bool :=
  containsDot t && !startsWithDot t

/-- The credential `PubKeyContext` selects (src/auth/auth.go lines 46-49):
the `token` query parameter, or the `x-jwt` header when that is empty. -/
def selectedToken (req : AuthRequest) : String :=
  if req.queryToken ≠ "" then req.queryToken else req.xjwtHeader

/-- The JWT branch of `PubKeyContext` (src/auth/auth.go lines 59-77):
decode the token; on error 401; then the handler's own expiry branch —
`if claims.VerifyExpiresAt(time.Now().UnixNano(), true)` — returns 401;
otherwise the `pubkey` claim is placed in the context. -/
def processAsJwt (env : AuthEnv) (token : String) : AuthOutcome :=
  let j := env.jwtOf token
  if !(DecodeJwt env.nowSec j) then .unauthorized
  else if j.claims.verifyExpiresAt env.nowNano true then .unauthorized
  else .authorized j.claims.pubkey

/-- The tribe-UUID branch of `PubKeyContext` (src/auth/auth.go lines 78-92):
`VerifyTribeUUID` is called; an empty pubkey or an error yields 401,
otherwise the recovered pubkey is placed in the context. -/
def processAsTribe (env : AuthEnv) (token : String) : AuthOutcome :=
  let pk := env.tribePubkey token
  if pk = "" || env.tribeErr token then .unauthorized
  else .authorized pk

/-- Embeds `PubKeyContext` (src/auth/auth.go lines 44-94): the token is the
`token` query parameter, or the `x-jwt` header when that is empty; an empty
token yields 401; otherwise the token is dispatched on `isJwtToken`. -/
def PubKeyContext (env : AuthEnv) (req : AuthRequest) : AuthOutcome :=
  let token := if req.queryToken ≠ "" then req.queryToken else req.xjwtHeader
  if token = "" then .unauthorized
  else if isJwtToken token then
    let j := env.jwtOf token
    if !(DecodeJwt env.nowSec j) then .unauthorized
    else if j.claims.verifyExpiresAt env.nowNano true then .unauthorized
    else .authorized j.claims.pubkey
  else
    let pk := env.tribePubkey token
    if pk = "" || env.tribeErr token then .unauthorized
    else .authorized pk

/-! Payment subsystem model.  The handler bodies (`bounty.go`) are not among
the sources; the definitions below are modelled from the specification
(sections 3, 4.1-4.4, 7 and 8) and corroborated by the behaviour asserted in
src/handlers/bounty_test.go. -/

/-- Modelled from the spec: the Bounty record of section 3 (the fields the
payment flow reads and writes), standing in for `db.NewBounty`. -/
structure NewBounty where
  id : Nat
  ownerPubkey : String
  assignee : String
  workspaceUuid : String
  price : Nat
  paid : Bool
deriving DecidableEq

/-- Modelled from the spec: a PaymentHistory row of section 3, standing in
for `db.NewPaymentHistory`; `status` is the boolean settlement flag the
tests use (`Status: true` = complete). -/
structure PaymentHistory where
  workspaceUuid : String
  amount : Nat
  paymentType : String
  senderPubkey : String
  receiverPubkey : String
  tag : String
  status : Bool
deriving DecidableEq

/-- Modelled from the spec: an invoice row of section 4.4, standing in for
`db.NewInvoiceList`; `status` is the stored settlement flag, `invoiceType`
is the invoice type (`"BUDGET"` for deposit invoices). -/
structure NewInvoiceList where
  paymentRequest : String
  status : Bool
  invoiceType : String
  amount : Nat
  workspaceUuid : String
  ownerPubkey : String
deriving DecidableEq

/-- Modelled from the spec: the datastore state the payment subsystem reads
and writes — the bounty table, the per-workspace budget ledger (section 3's
WorkspaceBudget rows, as a total map from workspace uuid to budget), the
payment history log, and the invoice table. -/
structure PayState where
  bounties : List NewBounty
  budgets : String → Int
  history : List PaymentHistory
  invoices : String → Option NewInvoiceList

/-- Point update of the budget ledger. -/
def setBudget (f : String → Int) (w : String) (v : Int) : String → Int :=
  fun x => if x = w then v else f x

/-- First bounty with the given id, as the handler's lookup by `{id}`. -/
def findBounty (bs : List NewBounty) (bid : Nat) : Option NewBounty :=
  bs.find? (fun b => b.id = bid)

/-- Marks the bounty with the given id as paid. -/
def markPaid (bs : List NewBounty) (bid : Nat) : List NewBounty :=
  bs.map (fun b => if b.id = bid then { b with paid := true } else b)

/-- Marks the invoice stored under the given payment request as settled. -/
def markInvoiceSettled (f : String → Option NewInvoiceList) (pr : String) :
    String → Option NewInvoiceList :=
  fun x => if x = pr then (f x).map (fun i => { i with status := true }) else f x

/-- Sets the status of every payment-history row tagged with the given tag
to true (settled). -/
def markHistorySettled (hs : List PaymentHistory) (tag : String) : List PaymentHistory :=
  hs.map (fun h => if h.tag = tag then { h with status := true } else h)

/-- Modelled from the spec: `MakeBountyPayment` (POST /gobounties/pay/{id}),
whose body is absent from the sources.  Per sections 4.1, 7 and 8 and the
behaviour asserted in TestMakeBountyPayment: an empty requester pubkey or a
failed role check yields 401 without side effects; a missing bounty is a
datastore failure (500); an already-paid bounty yields 405 without side
effects; a price above the workspace budget yields 403 without side effects;
otherwise the gateway is called — on success the handler returns 200, debits
the ledger by the price, marks the bounty paid and appends a complete
payment-history row; on gateway failure it returns 400 with no state change.
`hasAccess` stands for the injected `userHasAccess` role oracle and
`gatewayOk` for the outcome of the payment-gateway call. -/
def MakeBountyPayment (s : PayState) (requester : String) (hasAccess : Bool)
    (bid : Nat) (gatewayOk : Bool) : Nat × PayState :=
  if requester = "" then (401, s)
  else if !hasAccess then (401, s)
  else
    match findBounty s.bounties bid with
    | none => (500, s)
    | some b =>
      if b.paid then (405, s)
      else if (b.price : Int) > s.budgets b.workspaceUuid then (403, s)
      else if gatewayOk then
        (200,
          { s with
            bounties := markPaid s.bounties bid
            budgets := setBudget s.budgets b.workspaceUuid
              (s.budgets b.workspaceUuid - (b.price : Int))
            history :=
              { workspaceUuid := b.workspaceUuid
                amount := b.price
                paymentType := "payment"
                senderPubkey := requester
                receiverPubkey := b.assignee
                tag := ""
                status := true } :: s.history })
      else (400, s)

/-- Modelled from the spec: `BountyBudgetWithdraw`
(POST /gobounties/budget/withdraw), whose body is absent from the sources.
Per sections 4.3, 7 and 8 and TestBountyBudgetWithdraw: an empty requester
or a failed role check yields 401; a failed inter-withdrawal cooldown check
(the injected `getHoursDifference` throttle) yields 401; a decoded invoice
amount above the workspace budget yields 403 with the message
"Workspace budget is not enough to withdraw the amount" and no state change;
otherwise the gateway pays the invoice — on success the handler returns 200,
debits the ledger by exactly the invoice amount and appends a complete
withdrawal row; on gateway failure it returns 400 with the gateway's error
message and appends a failed row.  `amount` is the amount decoded from the
bolt11 payment request; `cooldownOk` is the cooldown oracle. -/
def BountyBudgetWithdraw (s : PayState) (requester : String)
    (hasAccess cooldownOk : Bool) (w : String) (amount : Nat)
    (gatewayOk : Bool) (gatewayErr : String) : (Nat × String) × PayState :=
  if requester = "" then ((401, ""), s)
  else if !hasAccess then
    ((401, "You don't have appropriate permissions to withdraw bounty budget"), s)
  else if !cooldownOk then
    ((401, "Your last withdrawal is not more than an hour ago"), s)
  else if (amount : Int) > s.budgets w then
    ((403, "Workspace budget is not enough to withdraw the amount"), s)
  else if gatewayOk then
    ((200, ""),
      { s with
        budgets := setBudget s.budgets w (s.budgets w - (amount : Int))
        history :=
          { workspaceUuid := w
            amount := amount
            paymentType := "withdraw"
            senderPubkey := requester
            receiverPubkey := requester
            tag := ""
            status := true } :: s.history })
  else
    ((400, gatewayErr),
      { s with
        history :=
          { workspaceUuid := w
            amount := amount
            paymentType := "withdraw"
            senderPubkey := requester
            receiverPubkey := requester
            tag := ""
            status := false } :: s.history })

/-- Modelled from the spec: the budget-deposit credit of sections 2 and 4.4
(a settled BUDGET invoice credits the workspace ledger). -/
def depositBudget (s : PayState) (w : String) (amount : Nat) : PayState :=
  { s with budgets := setBudget s.budgets w (s.budgets w + (amount : Int)) }

/-- Modelled from the spec: `PollInvoice`
(GET /gobounties/poll/invoice/{paymentRequest}), whose body is absent from
the sources.  Per section 4.4 and TestPollInvoice: when the gateway reports
the invoice settled and the stored invoice status is still unsettled, a
BUDGET invoice credits the workspace budget by the invoice amount, the
stored invoice is marked settled, and the payment-history rows tagged with
the payment request get status true; a non-BUDGET invoice is marked settled
without a budget credit (its bounty-payment bookkeeping is outside this
model).  If the stored status is already settled, or the gateway does not
report settlement, nothing changes — the guard on the stored status makes
repeated polling idempotent. -/
def PollInvoice (s : PayState) (pr : String) (gatewaySettled : Bool) : PayState :=
  match s.invoices pr with
  | none => s
  | some inv =>
    if gatewaySettled && !inv.status then
      if inv.invoiceType = "BUDGET" then
        { s with
          budgets := setBudget s.budgets inv.workspaceUuid
            (s.budgets inv.workspaceUuid + (inv.amount : Int))
          invoices := markInvoiceSettled s.invoices pr
          history := markHistorySettled s.history pr }
      else
        { s with
          invoices := markInvoiceSettled s.invoices pr
          history := markHistorySettled s.history pr }
    else s

/-- One operation applied through the bounty handlers, for stating the
ledger invariant over operation sequences. -/
inductive BudgetOp
  | pay (requester : String) (hasAccess : Bool) (bid : Nat) (gatewayOk : Bool)
  | withdraw (requester : String) (hasAccess cooldownOk : Bool) (w : String)
      (amount : Nat) (gatewayOk : Bool) (gatewayErr : String)
  | deposit (w : String) (amount : Nat)

/-- Applies one handler operation to the datastore state. -/
def applyOp (s : PayState) : BudgetOp → PayState
  | .pay requester hasAccess bid gatewayOk =>
      (MakeBountyPayment s requester hasAccess bid gatewayOk).2
  | .withdraw requester hasAccess cooldownOk w amount gatewayOk gatewayErr =>
      (BountyBudgetWithdraw s requester hasAccess cooldownOk w amount
        gatewayOk gatewayErr).2
  | .deposit w amount => depositBudget s w amount

/-- Applies a sequence of handler operations left to right. -/
def applyOps (s : PayState) : List BudgetOp → PayState
  | [] => s
  | op :: ops => applyOps (applyOp s op) ops

/-- The ledger invariant: every workspace budget is non-negative. -/
def budgetsNonneg (s : PayState) : Prop :=
  ∀ w, 0 ≤ s.budgets w

/-! Payment gateway client model, for `PayLightningInvoice`. -/

/-- Modelled from the spec: the JSON body of a gateway response as the
handler's decoder distinguishes it — the expected success shape
({"success": ..., "response": {...}}), an error object ({"error": ...}),
or anything else (for example a bare string), which fails to unmarshal into
either struct. -/
inductive GatewayBody
  | successShape (success settled : Bool)
      (paymentRequest paymentHash preimage amount : String)
  | errorShape (error : String)
  | malformed (raw : String)
deriving DecidableEq

/-- The unified success result `db.InvoicePaySuccess`. -/
structure InvoicePaySuccess where
  success : Bool
  settled : Bool
  paymentRequest : String
  paymentHash : String
  preimage : String
  amount : String
deriving DecidableEq

/-- The unified failure result `db.InvoicePayError`. -/
structure InvoicePayError where
  success : Bool
  error : String
deriving DecidableEq

/-- The zero value a Go struct keeps when unmarshalling fails. -/
def emptyPaySuccess : InvoicePaySuccess :=
  { success := false, settled := false, paymentRequest := ""
    paymentHash := "", preimage := "", amount := "" }

/-- The zero value of the failure result. -/
def emptyPayError : InvoicePayError :=
  { success := false, error := "" }

/-- Modelled from the spec: decoding a gateway body into the success result;
a body that is not the expected success shape leaves the zero value
(success = false) instead of raising a decode error. -/
def decodePaySuccess : GatewayBody → InvoicePaySuccess
  | .successShape success settled pr ph pre amt =>
      { success := success, settled := settled, paymentRequest := pr
        paymentHash := ph, preimage := pre, amount := amt }
  | _ => emptyPaySuccess

/-- Modelled from the spec: decoding a gateway error body; per section 4.2 a
non-2xx body is parsed for an `error` field if present, else a generic
"internal error" message is used; success is false in every case. -/
def decodePayError : GatewayBody → InvoicePayError
  | .errorShape e => { success := false, error := e }
  | _ => { success := false, error := "internal error" }

/-- Modelled from the spec: `PayLightningInvoice`, whose body is absent from
the sources.  Per section 4.2 and TestPayLightningInvoice: a network failure
(no response) yields two zero results; a 2xx response decodes the body as
the success shape (malformed bodies leave success = false); a non-2xx
response decodes the body as the error shape (malformed bodies yield the
generic failure).  The input is the gateway response as an optional pair of
status code and body. -/
def PayLightningInvoice (resp : Option (Nat × GatewayBody)) :
    InvoicePaySuccess × InvoicePayError :=
  match resp with
  | none => (emptyPaySuccess, emptyPayError)
  | some (status, body) =>
    if 200 ≤ status ∧ status < 300 then
      (decodePaySuccess body, emptyPayError)
    else
      (emptyPaySuccess, decodePayError body)

/-! Concrete sample data used by the witness theorems. -/

/-- A sample authentication environment: clock at second 1000 (nanosecond
10^12), every token string read as a signed JWT whose `exp` claim is
second 100 (long past), and tribe verification failing on every token. -/
def sampleAuthEnv : AuthEnv :=
  { nowSec := 1000
    nowNano := 1000000000000
    jwtOf := fun _ =>
      { sigValid := true
        claims := { expPresent := true, exp := 100, pubkey := "pk" } }
    tribePubkey := fun _ => ""
    tribeErr := fun _ => false }

/-- The spec scenario bounty: price 3000, unpaid, in workspace
"workspace_uuid". -/
def scenarioBounty : NewBounty :=
  { id := 1
    ownerPubkey := "owner_pubkey"
    assignee := "03b2205df68d90f8f9913650bc3161761b61d743e615a9faa7ffecea3380a93fc1"
    workspaceUuid := "workspace_uuid"
    price := 3000
    paid := false }

/-- The spec scenario datastore: every workspace budget 5000, one unpaid
bounty of price 3000. -/
def scenarioState : PayState :=
  { bounties := [scenarioBounty]
    budgets := fun _ => 5000
    history := []
    invoices := fun _ => none }

/-- The datastore after the scenario payment succeeded. -/
def scenarioPaidState : PayState :=
  (MakeBountyPayment scenarioState "admin_pubkey" true 1 true).2

/-- A sample BUDGET invoice of amount 1000, stored unsettled. -/
def sampleInvoice : NewInvoiceList :=
  { paymentRequest := "inv-req"
    status := false
    invoiceType := "BUDGET"
    amount := 1000
    workspaceUuid := "workspace_uuid"
    ownerPubkey := "owner_pubkey" }

/-- A datastore holding the sample BUDGET invoice and its pending
payment-history row. -/
def budgetInvoiceState : PayState :=
  { bounties := []
    budgets := fun _ => 5000
    history :=
      [{ workspaceUuid := "workspace_uuid"
         amount := 1000
         paymentType := "deposit"
         senderPubkey := "owner_pubkey"
         receiverPubkey := "owner_pubkey"
         tag := "inv-req"
         status := false }]
    invoices := fun x => if x = "inv-req" then some sampleInvoice else none }

/-- A sample operation sequence: a successful payment, an over-budget
withdrawal attempt, a deposit, and a successful withdrawal. -/
def sampleOps : List BudgetOp :=
  [ .pay "admin_pubkey" true 1 true
  , .withdraw "admin_pubkey" true true "workspace_uuid" 10000 true ""
  , .deposit "workspace_uuid" 2500
  , .withdraw "admin_pubkey" true true "workspace_uuid" 4000 true "" ]

/-! Helper lemmas shared by the claim theorems. -/

/-- A single handler operation preserves non-negativity of every workspace
budget: each debit is guarded by a budget check, and deposits only add. -/
theorem applyOp_budgetsNonneg (s : PayState) (op : BudgetOp)
    (h : budgetsNonneg s) : budgetsNonneg (applyOp s op) := by
  cases op with
  | pay requester hasAccess bid gatewayOk =>
    dsimp only [applyOp]
    unfold MakeBountyPayment
    split
    · exact h
    · split
      · exact h
      · split
        · exact h
        · next b heq =>
          split
          · exact h
          · split
            · exact h
            · split
              · intro w
                dsimp only [setBudget]
                split
                · next hover hw =>
                  have hb := h b.workspaceUuid
                  omega
                · exact h w
              · exact h
  | withdraw requester hasAccess cooldownOk w amount gatewayOk gatewayErr =>
    dsimp only [applyOp]
    unfold BountyBudgetWithdraw
    split
    · exact h
    · split
      · exact h
      · split
        · exact h
        · split
          · exact h
          · split
            · intro x
              dsimp only [setBudget]
              split
              · next hover hx =>
                have hb := h w
                omega
              · exact h x
            · exact h
  | deposit w amount =>
    intro x
    dsimp only [applyOp, depositBudget, setBudget]
    split
    · have hb := h w
      omega
    · exact h x

/-- Polling an invoice whose stored status is already settled changes
nothing, whatever the gateway reports. -/
theorem pollInvoice_settled_id (s : PayState) (pr : String) (g : Bool)
    (inv : NewInvoiceList) (h : s.invoices pr = some inv)
    (hs : inv.status = true) :
    PollInvoice s pr g = s := by
  simp [PollInvoice, h, hs]

/-- The middleware is the dispatch on the selected token: 401 on an empty
token, the JWT branch when `isJwtToken` holds, the tribe branch
otherwise. -/
theorem pubKeyContext_eq (env : AuthEnv) (req : AuthRequest) :
    PubKeyContext env req =
      (if selectedToken req = "" then AuthOutcome.unauthorized
       else if isJwtToken (selectedToken req) then
         processAsJwt env (selectedToken req)
       else processAsTribe env (selectedToken req)) := rfl

/-! Claim theorems. -/

/-- C1: a payment attempt by an authorized requester on a bounty already
marked paid returns 405 MethodNotAllowed and leaves the datastore (budget
ledger, history, bounty) unchanged, so no bounty transitions from paid to
paid again. -/
theorem makeBountyPayment_already_paid_405 (s : PayState) (requester : String)
    (bid : Nat) (gatewayOk : Bool) (b : NewBounty)
    (hreq : requester ≠ "")
    (hb : findBounty s.bounties bid = some b)
    (hpaid : b.paid = true) :
    MakeBountyPayment s requester true bid gatewayOk = (405, s) := by
  simp [MakeBountyPayment, hreq, hb, hpaid]

/-- Witness for C1: paying the scenario bounty a second time after the
successful scenario payment yields 405 and leaves the state unchanged. -/
theorem makeBountyPayment_already_paid_405_witness :
    MakeBountyPayment scenarioPaidState "admin_pubkey" true 1 true
      = (405, scenarioPaidState) :=
  makeBountyPayment_already_paid_405 scenarioPaidState "admin_pubkey" 1 true
    { scenarioBounty with paid := true } (by decide) (by decide) rfl

/-- C2: starting from a ledger in which every workspace budget is
non-negative, any sequence of payment, withdrawal and deposit operations
applied through the bounty handlers keeps every workspace budget
non-negative: each debit is rejected before it is applied unless the amount
is at most the current budget. -/
theorem applyOps_budgetsNonneg (ops : List BudgetOp) (s : PayState)
    (h : budgetsNonneg s) : budgetsNonneg (applyOps s ops) := by
  induction ops generalizing s with
  | nil => exact h
  | cons op ops ih => exact ih _ (applyOp_budgetsNonneg s op h)

/-- Witness for C2: the sample operation sequence applied to the scenario
datastore keeps every workspace budget non-negative. -/
theorem applyOps_budgetsNonneg_witness :
    budgetsNonneg (applyOps scenarioState sampleOps) :=
  applyOps_budgetsNonneg sampleOps scenarioState
    (fun _ => by norm_num [scenarioState])

/-- C3: an authorized payment attempt on an unpaid bounty whose price
exceeds the workspace budget returns 403 Forbidden and leaves the datastore
(budget ledger and payment history included) unchanged. -/
theorem makeBountyPayment_over_budget_403 (s : PayState) (requester : String)
    (bid : Nat) (gatewayOk : Bool) (b : NewBounty)
    (hreq : requester ≠ "")
    (hb : findBounty s.bounties bid = some b)
    (hpaid : b.paid = false)
    (hover : (b.price : Int) > s.budgets b.workspaceUuid) :
    MakeBountyPayment s requester true bid gatewayOk = (403, s) := by
  simp [MakeBountyPayment, hreq, hb, hpaid, hover]

/-- Witness for C3: a bounty of price 3000 against a budget of 0. -/
theorem makeBountyPayment_over_budget_403_witness :
    MakeBountyPayment
        { scenarioState with budgets := fun _ => 0 }
        "admin_pubkey" true 1 true
      = (403, { scenarioState with budgets := fun _ => 0 }) :=
  makeBountyPayment_over_budget_403 _ "admin_pubkey" 1 true scenarioBounty
    (by decide) (by decide) rfl (by norm_num [scenarioBounty, scenarioState])

/-- C4: in the spec scenario (budget 5000, unpaid bounty of price 3000,
authorized requester, gateway success) the payment returns 200, the bounty's
paid flag becomes true, and the workspace budget becomes exactly 2000. -/
theorem makeBountyPayment_scenario_success :
    (MakeBountyPayment scenarioState "admin_pubkey" true 1 true).1 = 200 ∧
    (findBounty scenarioPaidState.bounties 1).map NewBounty.paid = some true ∧
    scenarioPaidState.budgets "workspace_uuid" = 2000 := by
  refine ⟨rfl, ?_, ?_⟩ <;> decide

/-- C5: an authorized, non-throttled withdrawal whose decoded invoice amount
exceeds the workspace budget returns 403 with the message
"Workspace budget is not enough to withdraw the amount" and leaves the
datastore unchanged. -/
theorem bountyBudgetWithdraw_over_budget_403 (s : PayState)
    (requester w gatewayErr : String) (amount : Nat) (gatewayOk : Bool)
    (hreq : requester ≠ "")
    (hover : (amount : Int) > s.budgets w) :
    BountyBudgetWithdraw s requester true true w amount gatewayOk gatewayErr
      = ((403, "Workspace budget is not enough to withdraw the amount"), s) := by
  simp [BountyBudgetWithdraw, hreq, hover]

/-- Witness for C5: the spec scenario — budget 5000, invoice amount
10000. -/
theorem bountyBudgetWithdraw_over_budget_403_witness :
    BountyBudgetWithdraw scenarioState "admin_pubkey" true true
        "workspace_uuid" 10000 true ""
      = ((403, "Workspace budget is not enough to withdraw the amount"),
          scenarioState) :=
  bountyBudgetWithdraw_over_budget_403 scenarioState "admin_pubkey"
    "workspace_uuid" "" 10000 true (by decide)
    (by norm_num [scenarioState])

/-- C6: polling a stored-unsettled BUDGET invoice that the gateway reports
settled credits the workspace budget by the invoice amount, marks every
payment-history row tagged with the payment request as settled, and a
repeated poll of the same invoice is the identity — the credit is applied
exactly once. -/
theorem pollInvoice_budget_credit_once (s : PayState) (pr : String)
    (inv : NewInvoiceList)
    (hinv : s.invoices pr = some inv)
    (htype : inv.invoiceType = "BUDGET")
    (hstat : inv.status = false) :
    (PollInvoice s pr true).budgets inv.workspaceUuid
        = s.budgets inv.workspaceUuid + (inv.amount : Int) ∧
    PollInvoice (PollInvoice s pr true) pr true = PollInvoice s pr true ∧
    ∀ rec ∈ (PollInvoice s pr true).history, rec.tag = pr → rec.status = true := by
  have hstate : PollInvoice s pr true =
      { s with
        budgets := setBudget s.budgets inv.workspaceUuid
          (s.budgets inv.workspaceUuid + (inv.amount : Int))
        invoices := markInvoiceSettled s.invoices pr
        history := markHistorySettled s.history pr } := by
    simp [PollInvoice, hinv, hstat, htype]
  refine ⟨?_, ?_, ?_⟩
  · rw [hstate]
    simp [setBudget]
  · refine pollInvoice_settled_id _ pr true { inv with status := true } ?_ rfl
    rw [hstate]
    simp [markInvoiceSettled, hinv]
  · rw [hstate]
    intro rec hmem htag
    dsimp only [markHistorySettled] at hmem
    rcases List.mem_map.mp hmem with ⟨rec0, _, rfl⟩
    by_cases h0 : rec0.tag = pr
    · simp [h0]
    · simp only [if_neg h0] at htag ⊢
      exact absurd htag h0

/-- Witness for C6: the sample BUDGET invoice of amount 1000 against the
sample datastore of budget 5000. -/
theorem pollInvoice_budget_credit_once_witness :
    (PollInvoice budgetInvoiceState "inv-req" true).budgets "workspace_uuid"
        = budgetInvoiceState.budgets "workspace_uuid" + (1000 : Int) ∧
    PollInvoice (PollInvoice budgetInvoiceState "inv-req" true) "inv-req" true
        = PollInvoice budgetInvoiceState "inv-req" true ∧
    ∀ rec ∈ (PollInvoice budgetInvoiceState "inv-req" true).history,
      rec.tag = "inv-req" → rec.status = true :=
  pollInvoice_budget_credit_once budgetInvoiceState "inv-req" sampleInvoice
    (by simp [budgetInvoiceState]) rfl rfl

/-- C7: a gateway response whose body is not the expected JSON shape (a bare
string, for instance) makes `PayLightningInvoice` return success = false in
both result components instead of propagating a decode error, whatever the
HTTP status — 2xx or error alike. -/
theorem payLightningInvoice_malformed_body_fails (status : Nat) (raw : String) :
    (PayLightningInvoice (some (status, GatewayBody.malformed raw))).1.success
        = false ∧
    (PayLightningInvoice (some (status, GatewayBody.malformed raw))).2.success
        = false := by
  simp only [PayLightningInvoice]
  split <;>
    simp [decodePaySuccess, decodePayError, emptyPaySuccess, emptyPayError]

/-- C8: a request whose selected credential is a JWT with a genuinely past
expiry claim is rejected with 401 Unauthorized and the downstream handler is
not invoked: the JWT library's claim validation inside `DecodeJwt` fails on
the expired claim, whatever the signature validity. -/
theorem pubKeyContext_expired_jwt_401 (env : AuthEnv) (req : AuthRequest)
    (htok : selectedToken req ≠ "")
    (hjwt : isJwtToken (selectedToken req) = true)
    (hp : (env.jwtOf (selectedToken req)).claims.expPresent = true)
    (hz : (env.jwtOf (selectedToken req)).claims.exp ≠ 0)
    (hlt : (env.jwtOf (selectedToken req)).claims.exp < env.nowSec) :
    PubKeyContext env req = AuthOutcome.unauthorized := by
  have hn : ¬ (env.nowSec ≤ (env.jwtOf (selectedToken req)).claims.exp) :=
    not_le.mpr hlt
  rw [pubKeyContext_eq]
  generalize selectedToken req = t at htok hjwt hp hz hn ⊢
  simp [htok, hjwt, processAsJwt, DecodeJwt, claimsValid,
    JwtClaims.verifyExpiresAt, verifyExp, hp, hz, hn]

/-- Witness for C8: at second 1000, a validly signed token "a.b" whose exp
claim is second 100 is rejected. -/
theorem pubKeyContext_expired_jwt_401_witness :
    PubKeyContext sampleAuthEnv { queryToken := "a.b", xjwtHeader := "" }
      = AuthOutcome.unauthorized :=
  pubKeyContext_expired_jwt_401 sampleAuthEnv
    { queryToken := "a.b", xjwtHeader := "" }
    (by decide) (by decide) (by decide) (by decide) (by decide)

/-- C10: the middleware reads the credential from the `token` query
parameter and only if that is empty from the `x-jwt` header; with neither it
answers 401 without placing a pubkey in the context; a non-empty credential
goes through the JWT branch exactly when it contains a '.' and does not
start with '.', and through tribe-UUID verification otherwise. -/
theorem pubKeyContext_dispatch (env : AuthEnv) (req : AuthRequest) :
    selectedToken req
        = (if req.queryToken ≠ "" then req.queryToken else req.xjwtHeader) ∧
    (selectedToken req = "" → PubKeyContext env req = AuthOutcome.unauthorized) ∧
    (selectedToken req ≠ "" →
      containsDot (selectedToken req) = true →
      startsWithDot (selectedToken req) = false →
      PubKeyContext env req = processAsJwt env (selectedToken req)) ∧
    (selectedToken req ≠ "" →
      (containsDot (selectedToken req) = false ∨
        startsWithDot (selectedToken req) = true) →
      PubKeyContext env req = processAsTribe env (selectedToken req)) := by
  refine ⟨rfl, ?_, ?_, ?_⟩ <;> rw [pubKeyContext_eq] <;>
    generalize selectedToken req = t
  · intro h
    simp [h]
  · intro h hdot hdotstart
    simp [isJwtToken, h, hdot, hdotstart]
  · intro h hcase
    rcases hcase with hc | hc <;> simp [isJwtToken, h, hc]

/-- Witness for C10: the token "a.b" arriving in the query parameter is
processed by the JWT branch. -/
theorem pubKeyContext_dispatch_witness :
    PubKeyContext sampleAuthEnv { queryToken := "a.b", xjwtHeader := "x" }
      = processAsJwt sampleAuthEnv
          (selectedToken { queryToken := "a.b", xjwtHeader := "x" }) :=
  (pubKeyContext_dispatch sampleAuthEnv
      { queryToken := "a.b", xjwtHeader := "x" }).2.2.1
    (by decide) (by decide) (by decide)

end SphinxTribes
